import Mathlib

/-!
Verification development for the mch-helper repository (two Python source files:
`src/main.py` and `src/mch_helper/bot.py`).  Strings are modelled as `List Char`
(the code points of the Python `str`).  Each `re.sub` call of the source is
embedded as a dedicated left-to-right, non-overlapping scanner that mirrors the
compiled pattern's matching behaviour; external services (the Telegram
transport, the HTTP fetch of `requests`/`httpx`, the BeautifulSoup text
extraction and the Yandex completion endpoint) are modelled as explicit oracle
parameters, while everything the repository itself computes is translated
directly from the source.
-/

namespace MchHelper

/-- The characters matched by Python's `\s` (and stripped by `str.strip()`):
ASCII whitespace plus the Unicode whitespace code points recognised by CPython. -/
def pySpace (c : Char) : Bool :=
  c = ' ' || c = '\t' || c = '\n' || c = '\r' || c = '\x0b' || c = '\x0c' ||
  c.toNat = 28 || c.toNat = 29 || c.toNat = 30 || c.toNat = 31 ||
  c.toNat = 133 || c.toNat = 160 || c.toNat = 5760 ||
  (8192 ≤ c.toNat && c.toNat ≤ 8202) || c.toNat = 8232 || c.toNat = 8233 ||
  c.toNat = 8239 || c.toNat = 8287 || c.toNat = 12288

/-- Lower-casing as used by `re.IGNORECASE`, for the code points that occur in
the repository's patterns and inputs (ASCII, Latin-1, Greek and Cyrillic
capitals; all other characters are untouched). -/
def pyLower (c : Char) : Char :=
  let n := c.toNat
  if 65 ≤ n && n ≤ 90 then Char.ofNat (n + 32)
  else if 192 ≤ n && n ≤ 222 && n ≠ 215 then Char.ofNat (n + 32)
  else if 913 ≤ n && n ≤ 937 && n ≠ 930 then Char.ofNat (n + 32)
  else if 1040 ≤ n && n ≤ 1071 then Char.ofNat (n + 32)
  else if n = 1025 then Char.ofNat 1105
  else c

/-- Match a literal character sequence at the head of `s` with an explicit
character comparator; returns the remaining input on success. -/
def takeLitBy (eqc : Char → Char → Bool) : List Char → List Char → Option (List Char)
  | [], s => some s
  | _ :: _, [] => none
  | p :: ps, c :: cs => if eqc p c then takeLitBy eqc ps cs else none

/-- Case-sensitive literal match. -/
def takeLit : List Char → List Char → Option (List Char) :=
  takeLitBy (· == ·)

/-- Case-insensitive literal match (Python `re.IGNORECASE`). -/
def takeLitCI : List Char → List Char → Option (List Char) :=
  takeLitBy (fun a b => pyLower a == pyLower b)

/-- Whether the (case-insensitive) sequence `pat` occurs anywhere inside `s`. -/
def hasSeqCI (pat : List Char) : List Char → Bool
  | [] => (takeLitCI pat []).isSome
  | c :: cs => (takeLitCI pat (c :: cs)).isSome || hasSeqCI pat cs

/-- Python `str.strip()`: drop `pySpace` characters from both ends. -/
def pyStrip (s : List Char) : List Char :=
  (((s.dropWhile pySpace).reverse).dropWhile pySpace).reverse

/-- One generic pass of `re.sub`: scan left to right; at each position let the
matcher decide whether the pattern matches there (`tryAt prev rest` receives the
reversed original preceding characters, needed for look-behinds, and the rest of
the input); on a match of length `n` emit the replacement and continue after the
match, otherwise keep one character.  The fuel is the input length, which
bounds the number of scan steps because every match consumes at least one
character. -/
def reSub (tryAt : List Char → List Char → Option (Nat × List Char)) :
    Nat → List Char → List Char → List Char
  | 0, _, s => s
  | _ + 1, _, [] => []
  | fuel + 1, prev, c :: cs =>
    match tryAt prev (c :: cs) with
    | some (n, r) =>
        r ++ reSub tryAt fuel ((List.take n (c :: cs)).reverse ++ prev) (List.drop n (c :: cs))
    | none => c :: reSub tryAt fuel (c :: prev) cs

/-- Run a substitution pass over the whole input. -/
def runSub (tryAt : List Char → List Char → Option (Nat × List Char)) (s : List Char) :
    List Char :=
  reSub tryAt s.length [] s

/-- A Python `dict` used as an association list: lookup by key. -/
def dictGet {α : Type} (k : String) : List (String × α) → Option α
  | [] => none
  | (k', v) :: rest => if k' = k then some v else dictGet k rest

/-- A Python `dict` assignment `d[k] = v`: replace in place or append. -/
def dictSet {α : Type} (k : String) (v : α) : List (String × α) → List (String × α)
  | [] => [(k, v)]
  | (k', v') :: rest => if k' = k then (k, v) :: rest else (k', v') :: dictSet k v rest

end MchHelper

namespace TemplateStore

/-- From `main.py`: `@dataclass class UserTemplate: template: str; description: str`. -/
structure UserTemplate where
  template : String
  description : String
deriving DecidableEq

/-- One entry of the persisted JSON mapping as `_load` consumes it: both fields
are read with `payload.get(..., "")`, so each may be absent. -/
structure PayloadEntry where
  template : Option String
  description : Option String
deriving DecidableEq

/-- The backing file of the store. `none` = the file does not exist;
`some none` = the file exists but is unreadable or not valid JSON (so that
`json.loads` or the payload traversal raises); `some (some raw)` = a valid
serialized mapping.  The byte-level JSON encoding is performed by the external
`json` module and is abstracted to the mapping it denotes. -/
def FileState : Type := Option (Option (List (String × PayloadEntry)))

/-- State of `main.py`'s `TemplateStore`: in-memory data plus the backing file. -/
structure Store where
  data : List (String × UserTemplate)
  file : FileState

/-- Embedding of `TemplateStore._load`: a missing file leaves the store empty; an unreadable
file is caught by `except Exception` and resets `_data` to `{}`; a valid file
is read entry by entry with `payload.get("template", "")` and
`payload.get("description", "")`. -/
def load : FileState → List (String × UserTemplate)
  | none => []
  | some none => []
  | some (some raw) =>
      raw.map (fun kp => (kp.1, ⟨kp.2.template.getD "", kp.2.description.getD ""⟩))

/-- Embedding of `TemplateStore._save`: serialize the whole mapping (via `asdict`, which
emits both fields) and rewrite the file. -/
def save (s : Store) : Store :=
  { s with file := some (some (s.data.map (fun kv => (kv.1, ⟨some kv.2.template, some kv.2.description⟩)))) }

/-- Embedding of `TemplateStore.set_template`: upsert under `str(user_id)` then persist. -/
def set_template (user_id : Int) (template description : String) (s : Store) : Store :=
  save { s with data := MchHelper.dictSet (toString user_id) ⟨template, description⟩ s.data }

/-- Embedding of `TemplateStore.get_template`. -/
def get_template (user_id : Int) (s : Store) : Option UserTemplate :=
  MchHelper.dictGet (toString user_id) s.data

/-- A process restart: a fresh `TemplateStore(path)` runs `_load` on the
persisted file. -/
def restart (s : Store) : Store :=
  { data := load s.file, file := s.file }

end TemplateStore

namespace TemplateManager

/-- From `bot.py`: the per-user value is the dict `{'example': ..., 'description': ...}`. -/
structure TplEntry where
  example_text : String
  description : String
deriving DecidableEq

/-- The backing file of `TemplateManager`. `none` = `TEMPLATES_FILE` does not
exist; `some none` = the file exists but `json.load` raises on it;
`some (some m)` = a valid serialized mapping (the `json` round-trip of the dict
is abstracted to the mapping itself). -/
def FileState : Type := Option (Option (List (String × TplEntry)))

/-- State of `bot.py`'s `TemplateManager`: in-memory dict plus the backing file. -/
structure Manager where
  templates : List (String × TplEntry)
  file : FileState

/-- Embedding of `TemplateManager.load_templates`: if the file exists it is `json.load`ed
with no exception handling, so an unreadable file propagates the error;
a missing file yields `{}`. -/
def load_templates : FileState → Except Unit (List (String × TplEntry))
  | none => Except.ok []
  | some none => Except.error ()
  | some (some m) => Except.ok m

/-- Embedding of `TemplateManager.save_templates`: rewrite the file with the whole dict. -/
def save_templates (s : Manager) : Manager :=
  { s with file := some (some s.templates) }

/-- Embedding of `TemplateManager.set_template`: assign under `str(user_id)` then save. -/
def set_template (user_id : Int) (example_text description : String) (s : Manager) : Manager :=
  save_templates { s with templates := MchHelper.dictSet (toString user_id) ⟨example_text, description⟩ s.templates }

/-- Embedding of `TemplateManager.update_description`: only if `str(user_id)` is present,
overwrite the `description` field in place and save; otherwise do nothing. -/
def update_description (user_id : Int) (description : String) (s : Manager) : Manager :=
  match MchHelper.dictGet (toString user_id) s.templates with
  | some e =>
      save_templates { s with templates := MchHelper.dictSet (toString user_id) ⟨e.example_text, description⟩ s.templates }
  | none => s

/-- Embedding of `TemplateManager.get_template`. -/
def get_template (user_id : Int) (s : Manager) : Option TplEntry :=
  MchHelper.dictGet (toString user_id) s.templates

/-- A process restart: a fresh `TemplateManager()` runs `load_templates`
(which can fail) on the persisted file. -/
def restart (s : Manager) : Except Unit Manager :=
  (load_templates s.file).map (fun m => { templates := m, file := s.file })

end TemplateManager

namespace VacancyProcessor

open MchHelper

/-- The literal character `\x60` (U+0060) used by the code-fence patterns. -/
def tick : Char := Char.ofNat 96

/-- The call-to-action phrase appearing literally in the patterns and
replacements of `format_contact_links` (38 code points, exactly as stored in
the source file). -/
def PHRASE : List Char :=
  [8211, 176, 8212, 199, 8211, 8734, 8212, 199, 8212, 229, 32, 8212, 225, 8211,
   8734, 8212, 197, 8212, 199, 8212, 229, 8212, 233, 32, 8211, 8747, 8211, 230,
   8211, 186, 8211, 8734, 8211, 937, 8211, 165, 8212, 227].map Char.ofNat

/-- The generic anchor label of rule 3 of `format_contact_links`
(12 code points, exactly as stored in the source file). -/
def SSYLKA : List Char :=
  [8212, 197, 8212, 197, 8212, 227, 8211, 170, 8211, 8747, 8211, 8734].map Char.ofNat

/-- Common front part of the first two patterns of `format_contact_links`:
the phrase (case-insensitively), `:?`, then — because the raw string contains a
doubled backslash — a literal `\` followed by `s*` (the letter `s`, repeated,
case-insensitively).  Returns the consumed length and the rest. -/
def tryFclPre (s : List Char) : Option (Nat × List Char) :=
  match takeLitCI PHRASE s with
  | none => none
  | some r1 =>
    let (cl, r2) := match r1 with
      | ':' :: r => (1, r)
      | _ => (0, r1)
    match r2 with
    | '\\' :: r3 =>
      let k := (r3.takeWhile (fun c => pyLower c == 's')).length
      some (PHRASE.length + cl + 1 + k, r3.drop k)
    | _ => none

/-- Rule 1 of `format_contact_links`:
`re.sub(r"(PHRASE:?\\s*)(@\\w+)", lambda m: f"{m.group(1)}{m.group(2)}", text, flags=re.IGNORECASE)`.
The pattern requires `@` followed by a literal `\` and letters `w`; the
replacement is the two groups themselves, i.e. the match is rewritten to
itself. -/
def tryFcl1 (s : List Char) : Option (Nat × List Char) :=
  match tryFclPre s with
  | none => none
  | some (n1, r) =>
    match r with
    | '@' :: '\\' :: r2 =>
      let k := (r2.takeWhile (fun c => pyLower c == 'w')).length
      if k = 0 then none
      else some (n1 + 2 + k, (List.take (n1 + 2 + k) s))
    | _ => none

/-- Rule 2 of `format_contact_links`:
`re.sub(r"(PHRASE:?\\s*)(https?://\\S+)", lambda m: '<a href="{g2}">PHRASE</a>', text, flags=re.IGNORECASE)`.
Because of the doubled backslash, group 2 is `https?://` followed by a literal
`\` and one or more letters `s` (case-insensitively). -/
def tryFcl2 (s : List Char) : Option (Nat × List Char) :=
  match tryFclPre s with
  | none => none
  | some (n1, r) =>
    match takeLitCI ("http".data) r with
    | none => none
    | some r1 =>
      let (sl, r2) := match r1 with
        | c :: rr => if pyLower c == 's' then (1, rr) else (0, r1)
        | [] => (0, r1)
      match r2 with
      | ':' :: '/' :: '/' :: '\\' :: r3 =>
        let k := (r3.takeWhile (fun c => pyLower c == 's')).length
        if k = 0 then none
        else
          let g2len := 4 + sl + 3 + 1 + k
          some (n1 + g2len,
            ("<a href=\"".data) ++ List.take g2len r ++ ("\">".data) ++ PHRASE ++ ("</a>".data))
      | _ => none

/-- Rule 3 of `format_contact_links`:
`re.sub(r"(?<!href=\")(?<!\">)(https?://\\S+)", lambda m: '<a href="{g1}">SSYLKA</a>', text)`.
No `IGNORECASE` here; because of the doubled backslash the group is `https?://`
followed by a literal `\` and one or more capital `S`.  The two look-behinds
inspect the original characters before the match position. -/
def tryFcl3 (prev s : List Char) : Option (Nat × List Char) :=
  if (takeLit ['"', '=', 'f', 'e', 'r', 'h'] prev).isSome then none
  else if (takeLit ['>', '"'] prev).isSome then none
  else
    match takeLit ("http".data) s with
    | none => none
    | some r1 =>
      let (sl, r2) := match r1 with
        | 's' :: rr => (1, rr)
        | _ => (0, r1)
      match r2 with
      | ':' :: '/' :: '/' :: '\\' :: r3 =>
        let k := (r3.takeWhile (fun c => c == 'S')).length
        if k = 0 then none
        else
          let g1len := 4 + sl + 3 + 1 + k
          some (g1len,
            ("<a href=\"".data) ++ List.take g1len s ++ ("\">".data) ++ SSYLKA ++ ("</a>".data))
      | _ => none

/-- Embedding of `VacancyProcessor.format_contact_links` (bot.py lines 89–111): the three
`re.sub` rules applied in order. -/
def format_contact_links (s : List Char) : List Char :=
  let t1 := runSub (fun _ => tryFcl1) s
  let t2 := runSub (fun _ => tryFcl2) t1
  runSub tryFcl3 t2

/-- Embedding of `re.sub(r'^`{3,}\s*', '', text)`: if the text begins with at least three
backticks, drop that whole backtick run and the following whitespace run. -/
def stripLeadTicks (s : List Char) : List Char :=
  let k := (s.takeWhile (fun c => c == tick)).length
  if 3 ≤ k then (s.drop k).dropWhile pySpace else s

/-- Helper for the trailing-fence pattern, working on the reversed text:
if it begins (i.e. the text ends) with at least three backticks, drop them and
the preceding whitespace run. -/
def dropTrailTicksWs (r : List Char) : Option (List Char) :=
  let k := (r.takeWhile (fun c => c == tick)).length
  if 3 ≤ k then some ((r.drop k).dropWhile pySpace) else none

/-- Embedding of `re.sub(r'\s*`{3,}$', '', text)`: the dollar matches at the very end or
just before a single final newline, and the matched backticks must directly
precede it, so the pass removes a final run of at least three backticks (and
the whitespace run before it), possibly shielded by one trailing newline. -/
def stripTrailTicks (s : List Char) : List Char :=
  match s.reverse with
  | '\n' :: r' =>
    match dropTrailTicksWs r' with
    | some r'' => r''.reverse ++ ['\n']
    | none => s
  | r =>
    match dropTrailTicksWs r with
    | some r'' => r''.reverse
    | none => s

/-- Embedding of `re.sub(r'<br\s*/?>', '\n', text)`. -/
def tryBr (s : List Char) : Option (Nat × List Char) :=
  match takeLit ("<br".data) s with
  | none => none
  | some r1 =>
    let w := (r1.takeWhile pySpace).length
    match r1.drop w with
    | '/' :: '>' :: _ => some (3 + w + 2, ['\n'])
    | '>' :: _ => some (3 + w + 1, ['\n'])
    | _ => none

/-- A pattern of the shape `tag[^>]*>` rewritten to a fixed replacement
(used for `<p[^>]*>`, `<div[^>]*>` and `</?span[^>]*>` tails). -/
def tryTagTail (tag : List Char) (repl : List Char) (s : List Char) :
    Option (Nat × List Char) :=
  match takeLit tag s with
  | none => none
  | some r1 =>
    let k := (r1.takeWhile (fun c => c != '>')).length
    match r1.drop k with
    | '>' :: _ => some (tag.length + k + 1, repl)
    | _ => none

/-- Embedding of `re.sub(r'</?span[^>]*>', '', text)`. -/
def trySpan (s : List Char) : Option (Nat × List Char) :=
  match s with
  | '<' :: '/' :: r =>
    match tryTagTail ("span".data) [] r with
    | some (n, repl) => some (n + 2, repl)
    | none => none
  | '<' :: r =>
    match tryTagTail ("span".data) [] r with
    | some (n, repl) => some (n + 1, repl)
    | none => none
  | _ => none

/-- A literal pattern rewritten to a fixed replacement. -/
def tryLit (pat repl : List Char) (s : List Char) : Option (Nat × List Char) :=
  (takeLit pat s).map (fun _ => (pat.length, repl))

/-- The alternatives of the look-ahead in
`re.sub(r'<(?!/?[biusa]|/?code|/?pre|/?blockquote|a\s)[^>]+>', '', text)`:
after the `<`, an optional `/` followed by one of the letters `b i u s a`, or
by `code`, `pre`, `blockquote`, or the letter `a` followed by whitespace. -/
def allowedLA (r : List Char) : Bool :=
  let one : List Char → Bool := fun t =>
    match t with
    | c :: _ => c = 'b' || c = 'i' || c = 'u' || c = 's' || c = 'a'
    | [] => false
  let lit : List Char → List Char → Bool := fun w t => (takeLit w t).isSome
  let slashed : (List Char → Bool) → Bool := fun p =>
    p r || (match r with
            | '/' :: r' => p r'
            | _ => false)
  slashed one || slashed (lit ("code".data)) || slashed (lit ("pre".data)) ||
  slashed (lit ("blockquote".data)) ||
  (match r with
   | 'a' :: c :: _ => pySpace c
   | _ => false)

/-- The generic tag-removal pass: any `<...>` whose interior does not start
with one of the allowed alternatives is deleted (its interior must be
non-empty and free of `>`). -/
def tryOther (s : List Char) : Option (Nat × List Char) :=
  match s with
  | '<' :: rest =>
    if allowedLA rest then none
    else
      let k := (rest.takeWhile (fun c => c != '>')).length
      if k = 0 then none
      else
        match rest.drop k with
        | '>' :: _ => some (1 + k + 1, [])
        | _ => none
  | _ => none

/-- Embedding of `re.sub(r'https?://\S*vseti\.app\S*', '', text, flags=re.IGNORECASE)`:
a scheme followed by a non-whitespace run containing `vseti.app`
(case-insensitively) is deleted up to the end of the run. -/
def tryVsetiUrl (s : List Char) : Option (Nat × List Char) :=
  match takeLitCI ("http".data) s with
  | none => none
  | some r1 =>
    let (sl, r2) := match r1 with
      | c :: rr => if pyLower c == 's' then (1, rr) else (0, r1)
      | [] => (0, r1)
    match r2 with
    | ':' :: '/' :: '/' :: r3 =>
      let run := r3.takeWhile (fun c => !pySpace c)
      if hasSeqCI ("vseti.app".data) run then some (4 + sl + 3 + run.length, [])
      else none
    | _ => none

/-- Embedding of `re.sub(r'vseti\.app', '', text, flags=re.IGNORECASE)`. -/
def tryVsetiWord (s : List Char) : Option (Nat × List Char) :=
  (takeLitCI ("vseti.app".data) s).map (fun _ => (9, []))

/-- Embedding of `re.sub(r'\n{3,}', '\n\n', text)`. -/
def tryNl3 (s : List Char) : Option (Nat × List Char) :=
  let k := (s.takeWhile (fun c => c == '\n')).length
  if 3 ≤ k then some (k, ['\n', '\n']) else none

/-- Embedding of `re.sub(r'^\s*(html|body)\s*[:>\-]?\s*', '', text, flags=re.IGNORECASE)`:
anchored at the start: leading whitespace, the word `html` or `body`
(case-insensitively), optional whitespace, an optional `:`/`>`/`-`, and
optional whitespace are removed. -/
def stripHtmlBody (s : List Char) : List Char :=
  let r1 := s.dropWhile pySpace
  let afterWord : List Char → List Char := fun r2 =>
    let r3 := r2.dropWhile pySpace
    match r3 with
    | c :: r4 => if c = ':' || c = '>' || c = '-' then r4.dropWhile pySpace else r3
    | [] => []
  match takeLitCI ("html".data) r1 with
  | some r2 => afterWord r2
  | none =>
    match takeLitCI ("body".data) r1 with
    | some r2 => afterWord r2
    | none => s

/-- Embedding of `VacancyProcessor.clean_html_for_telegram` (bot.py lines 113–144): the
ordered sequence of rewrite passes, ending in `str.strip()`. -/
def clean_html_for_telegram (s : List Char) : List Char :=
  let t1 := stripLeadTicks s
  let t2 := stripTrailTicks t1
  let t3 := runSub (fun _ => tryBr) t2
  let t4 := runSub (fun _ => tryTagTail ("<p".data) ['\n']) t3
  let t5 := runSub (fun _ => tryLit ("</p>".data) ['\n']) t4
  let t6 := runSub (fun _ => tryTagTail ("<div".data) ['\n']) t5
  let t7 := runSub (fun _ => tryLit ("</div>".data) ['\n']) t6
  let t8 := runSub (fun _ => trySpan) t7
  let t9 := runSub (fun _ => tryLit ("<strong>".data) ("<b>".data)) t8
  let t10 := runSub (fun _ => tryLit ("</strong>".data) ("</b>".data)) t9
  let t11 := runSub (fun _ => tryLit ("<em>".data) ("<i>".data)) t10
  let t12 := runSub (fun _ => tryLit ("</em>".data) ("</i>".data)) t11
  let t13 := runSub (fun _ => tryOther) t12
  let t14 := runSub (fun _ => tryVsetiUrl) t13
  let t15 := runSub (fun _ => tryVsetiWord) t14
  let t16 := runSub (fun _ => tryNl3) t15
  let t17 := stripHtmlBody t16
  pyStrip t17

/-- The post-processing applied to the model output in
`generate_message` (bot.py lines 313–317): `format_contact_links` followed by
`clean_html_for_telegram`; this composition is the output sanitizer. -/
def sanitize_output (s : List Char) : List Char :=
  clean_html_for_telegram (format_contact_links s)

end VacancyProcessor

namespace MchHelper

/-- Python truthiness of an optional string (`not self.api_key`):
false for `None` and for the empty string. -/
def falsy : Option (List Char) → Bool
  | none => true
  | some s => s.isEmpty

end MchHelper

namespace VacancyProcessor

open MchHelper

/-- One match attempt of the URL pattern `r'https?://[^\s]+'` used by
`extract_url_content`: scheme, `://`, then a non-empty maximal run of
non-whitespace.  Returns the matched text and the rest of the input. -/
def tryUrl (s : List Char) : Option (List Char × List Char) :=
  match takeLit ("http".data) s with
  | none => none
  | some r1 =>
    let (sl, r2) := match r1 with
      | 's' :: rr => (1, rr)
      | _ => (0, r1)
    match r2 with
    | ':' :: '/' :: '/' :: r3 =>
      let run := r3.takeWhile (fun c => !pySpace c)
      if run.length = 0 then none
      else some (s.take (4 + sl + 3 + run.length), r3.drop run.length)
    | _ => none

/-- The scan of `re.findall` for the URL pattern: leftmost, non-overlapping
matches in order.  The fuel is the input length. -/
def findUrlsGo : Nat → List Char → List (List Char)
  | 0, _ => []
  | _ + 1, [] => []
  | fuel + 1, c :: cs =>
    match tryUrl (c :: cs) with
    | some (m, rest) => m :: findUrlsGo fuel rest
    | none => findUrlsGo fuel cs

/-- Embedding of `re.findall(r'https?://[^\s]+', text)`. -/
def findUrls (s : List Char) : List (List Char) :=
  findUrlsGo s.length s

/-- Python `text.split('\n')`. -/
def splitNl : List Char → List (List Char)
  | [] => [[]]
  | c :: cs =>
    let r := splitNl cs
    if c = '\n' then [] :: r
    else
      match r with
      | h :: t => (c :: h) :: t
      | [] => [[c]]

/-- Python `'\n'.join(lines)`. -/
def joinNl : List (List Char) → List Char
  | [] => []
  | [l] => l
  | l :: ls => l ++ '\n' :: joinNl ls

/-- bot.py lines 175–176: `lines = [line.strip() for line in text_content.split('\n') if line.strip()]`,
`clean_text = '\n'.join(lines)`. -/
def cleanLines (t : List Char) : List Char :=
  joinNl (((splitNl t).filter (fun l => !(pyStrip l).isEmpty)).map pyStrip)

/-- Embedding of `VacancyProcessor.extract_url_content` (bot.py lines 146–185).  The
network fetch (`requests.get` with headers and timeout, `raise_for_status`)
and the BeautifulSoup tag removal and `get_text` call are external effects,
modelled by the oracle `fetchText`: `some t` is the page text produced by
`soup.get_text(separator='\n', strip=True)` after decomposing
script/style/nav/footer/header, `none` means some step of the `try` block
raised.  Everything else is the repository's own computation. -/
def extract_url_content (fetchText : List Char → Option (List Char)) (text : List Char) :
    List Char × Option (List Char) :=
  match findUrls text with
  | [] => (text, none)
  | url :: _ =>
    match fetchText url with
    | some tc => (cleanLines tc, some url)
    | none => (text, some url)

/-- Outcome of the single `requests.post` call inside `generate_message`'s
`try` block: `raised` = the post (or `response.json()`) raised;
`response status extracted` = a response with the given status code, where
`extracted` is `result['result']['alternatives'][0]['message']['text']` when
the shape is as expected and `none` when that indexing raises. -/
inductive ApiOutcome where
  | raised : ApiOutcome
  | response (status : Nat) (extracted : Option (List Char)) : ApiOutcome

/-- Fragment 1 of `_generate_simple_message` (bot.py line 333), the warning
banner ending in a blank line; code points exactly as stored in the source. -/
def SIMPLE1 : List Char :=
  [8218, 246, 8224, 212, 8719, 232, 32, 65, 73, 32, 8211, 8805, 8211, 181, 8211,
   937, 8211, 181, 8212, 196, 8211, 8734, 8212, 220, 8211, 8719, 8212, 232, 32,
   8211, 937, 8211, 181, 8211, 165, 8211, 230, 8212, 197, 8212, 199, 8212, 201,
   8211, 248, 8211, 937, 8211, 8734, 46, 32, 8211, 252, 8211, 230, 8211, 8747,
   8211, 8734, 8211, 8721, 8212, 227, 8211, 8804, 8211, 8734, 8212, 233, 32,
   8211, 248, 8212, 196, 8211, 8719, 8211, 186, 8211, 181, 8212, 196, 58, 10,
   10].map Char.ofNat

/-- Fragment 2 (bot.py line 334): the label before the example. -/
def SIMPLE2 : List Char :=
  [42, 42, 8211, 237, 8211, 8734, 8212, 224, 32, 8211, 248, 8212, 196, 8211,
   8719, 8211, 186, 8211, 181, 8212, 196, 58, 42, 42, 10].map Char.ofNat

/-- Fragment 3 (bot.py line 335): the label before the new vacancy text. -/
def SIMPLE3 : List Char :=
  [42, 42, 8211, 249, 8211, 230, 8211, 8804, 8211, 8734, 8212, 232, 32, 8211,
   8804, 8211, 8734, 8211, 8747, 8211, 8734, 8211, 937, 8212, 197, 8211, 8719,
   8212, 232, 58, 42, 42, 10].map Char.ofNat

/-- Fragment 4 (bot.py line 336): the closing hint line. -/
def SIMPLE4 : List Char :=
  [63743, 252, 237, 176, 32, 8211, 249, 8211, 8734, 8212, 197, 8212, 199, 8212,
   196, 8211, 230, 8211, 960, 8212, 199, 8211, 181, 32, 89, 97, 110, 100, 101,
   120, 32, 65, 80, 73, 32, 8211, 165, 8211, 170, 8212, 232, 32, 8211, 8734,
   8211, 8804, 8212, 199, 8211, 230, 8211, 186, 8211, 8734, 8212, 199, 8211,
   8719, 8212, 225, 8211, 181, 8212, 197, 8211, 8747, 8211, 230, 8211, 960, 32,
   8211, 8805, 8211, 181, 8211, 937, 8211, 181, 8212, 196, 8211, 8734, 8212,
   220, 8211, 8719, 8211, 8719, 32, 8211, 8804, 32, 8212, 197, 8212, 199, 8211,
   8719, 8211, 170, 8211, 181, 32, 8211, 248, 8212, 196, 8211, 8719, 8211, 186,
   8211, 181, 8212, 196, 8211, 8734, 46].map Char.ofNat

/-- Embedding of `VacancyProcessor._generate_simple_message` (bot.py lines 326–337): the
deterministic non-AI fallback; `contact_info` is accepted but not used by the
body, exactly as in the source. -/
def generate_simple_message (vacancy_text example_text : List Char)
    (contact_info : Option (List Char)) : List Char :=
  SIMPLE1 ++ SIMPLE2 ++ example_text ++ ['\n', '\n'] ++
    SIMPLE3 ++ vacancy_text ++ ['\n', '\n'] ++ SIMPLE4

/-- Embedding of `VacancyProcessor.generate_message` (bot.py lines 187–324).  The outcome
of the external completion call is the oracle `net`; the returned flag records
whether `requests.post` was reached (the prompt construction itself has no
observable effect outside the network request).  `description` is
interpolated into the prompt only, so it influences the result only through
`net`. -/
def generate_message (api_key folder_id : Option (List Char)) (net : ApiOutcome)
    (vacancy_text example_text description : List Char)
    (contact_info : Option (List Char)) : List Char × Bool :=
  if MchHelper.falsy api_key || MchHelper.falsy folder_id then
    (generate_simple_message vacancy_text example_text contact_info, false)
  else
    match net with
    | ApiOutcome.raised =>
        (generate_simple_message vacancy_text example_text contact_info, true)
    | ApiOutcome.response status extracted =>
      if status = 200 then
        match extracted with
        | some t => (clean_html_for_telegram (format_contact_links (pyStrip t)), true)
        | none => (generate_simple_message vacancy_text example_text contact_info, true)
      else (generate_simple_message vacancy_text example_text contact_info, true)

end VacancyProcessor

namespace VacancyBot

/-- The ways `VacancyBot._call_yandex_llm` (main.py lines 176–223) fails; each
corresponds to an exception propagated to the caller. -/
inductive LlmError where
  | configMissing : LlmError
  | transport : LlmError
  | httpStatus (code : Nat) : LlmError
  | badShape : LlmError
deriving DecidableEq

/-- Outcome of the single `httpx` post in `_call_yandex_llm`: `raised` = the
post or `response.json()` raised; otherwise the status code and the optionally
extractable `result.alternatives[0].message.text`. -/
inductive HttpxOutcome where
  | raised : HttpxOutcome
  | response (status : Nat) (extracted : Option (List Char)) : HttpxOutcome

/-- Embedding of `VacancyBot._call_yandex_llm` (main.py lines 176–223): raises
`RuntimeError` when `YANDEX_API_KEY` is unset, lets `raise_for_status` raise on
a 4xx/5xx status, and raises `RuntimeError` when the response shape is not the
expected one; on success returns the stripped completion text.  Every `error`
value models an exception propagated to the caller. -/
def call_yandex_llm (api_key : Option (List Char)) (net : HttpxOutcome)
    (template description vacancy_text : List Char) : Except LlmError (List Char) :=
  if MchHelper.falsy api_key then Except.error LlmError.configMissing
  else
    match net with
    | HttpxOutcome.raised => Except.error LlmError.transport
    | HttpxOutcome.response status extracted =>
      if 400 ≤ status then Except.error (LlmError.httpStatus status)
      else
        match extracted with
        | some t => Except.ok (MchHelper.pyStrip t)
        | none => Except.error LlmError.badShape

end VacancyBot

namespace MchHelper

theorem dictGet_dictSet_self {α : Type} (k : String) (v : α) :
    ∀ l : List (String × α), dictGet k (dictSet k v l) = some v
  | [] => by simp [dictGet, dictSet]
  | (k', v') :: rest => by
    by_cases h : k' = k
    · simp [dictGet, dictSet, h]
    · simp [dictGet, dictSet, h, dictGet_dictSet_self k v rest]

theorem dictGet_dictSet_ne {α : Type} (k q : String) (v : α) (h : q ≠ k) :
    ∀ l : List (String × α), dictGet q (dictSet k v l) = dictGet q l
  | [] => by
    have hkq : k ≠ q := fun hh => h hh.symm
    simp [dictGet, dictSet, hkq]
  | (k', v') :: rest => by
    have hkq : k ≠ q := fun hh => h hh.symm
    by_cases hk : k' = k
    · subst hk
      simp [dictGet, dictSet, hkq]
    · by_cases hq : k' = q
      · simp [dictGet, dictSet, hk, hq, h]
      · simp [dictGet, dictSet, hk, hq, dictGet_dictSet_ne k q v h rest]

theorem headDropWhileFalse (p : Char → Bool) :
    ∀ (l : List Char) (c : Char) (cs : List Char), l.dropWhile p = c :: cs → p c = false
  | [], c, cs, h => by simp [List.dropWhile] at h
  | a :: l, c, cs, h => by
    rw [List.dropWhile_cons] at h
    by_cases hp : p a
    · exact headDropWhileFalse p l c cs (by simpa [hp] using h)
    · rw [if_neg hp] at h
      cases h
      simpa using hp

theorem getLastDropWhile (p : Char → Bool) :
    ∀ l : List Char, l.dropWhile p ≠ [] → (l.dropWhile p).getLast? = l.getLast?
  | [], h => absurd rfl h
  | a :: l, h => by
    rw [List.dropWhile_cons] at h ⊢
    by_cases hp : p a
    · rw [if_pos hp] at h ⊢
      rw [getLastDropWhile p l h]
      cases l with
      | nil => simp [List.dropWhile] at h
      | cons b m => exact (List.getLast?_cons_cons ..).symm
    · rw [if_neg hp]

theorem pyStripHead (x : List Char) (c : Char) (cs : List Char)
    (h : pyStrip x = c :: cs) : pySpace c = false := by
  unfold pyStrip at h
  have hne : ((x.dropWhile pySpace).reverse).dropWhile pySpace ≠ [] := by
    intro hz
    rw [hz] at h
    exact List.noConfusion h
  have hlast : (((x.dropWhile pySpace).reverse).dropWhile pySpace).getLast? = some c := by
    rw [← List.head?_reverse, h]
    rfl
  rw [getLastDropWhile _ _ hne, List.getLast?_reverse] at hlast
  obtain ⟨t, ht⟩ : ∃ t, x.dropWhile pySpace = c :: t := by
    cases hx : x.dropWhile pySpace with
    | nil => rw [hx] at hlast; exact absurd hlast (by simp)
    | cons y t =>
      rw [hx] at hlast
      simp at hlast
      exact ⟨t, by rw [hlast]⟩
  exact headDropWhileFalse pySpace x c t ht

theorem pyStripLast (x : List Char) (c : Char)
    (h : (pyStrip x).getLast? = some c) : pySpace c = false := by
  unfold pyStrip at h
  rw [List.getLast?_reverse] at h
  cases hx : ((x.dropWhile pySpace).reverse).dropWhile pySpace with
  | nil => rw [hx] at h; exact absurd h (by simp)
  | cons y t =>
    rw [hx] at h
    simp at h
    subst h
    exact headDropWhileFalse pySpace _ y t hx

end MchHelper

namespace TemplateStore

theorem enc_dec (l : List (String × UserTemplate)) :
    (l.map (fun kv => (kv.1, (⟨some kv.2.template, some kv.2.description⟩ : PayloadEntry)))).map
      (fun kp => (kp.1, (⟨kp.2.template.getD "", kp.2.description.getD ""⟩ : UserTemplate))) = l := by
  induction l with
  | nil => rfl
  | cons kv rest ih =>
    simp only [List.map_cons, ih]
    rfl

theorem load_save (l : List (String × UserTemplate)) (f : FileState) :
    load ((save { data := l, file := f }).file) = l :=
  enc_dec l

theorem load_set_file (uid : Int) (t d : String) (s : Store) :
    load (set_template uid t d s).file =
      MchHelper.dictSet (toString uid) ⟨t, d⟩ s.data :=
  enc_dec _

end TemplateStore

/-- C3: for every user id, template text and description, `setTemplate`
followed immediately by `getTemplate` for the same user returns the
just-written (template, description) pair, in both stores (`TemplateStore` of
`main.py` and `TemplateManager` of `bot.py`), and the same pair is still
returned after a simulated restart that reloads the store from the persisted
file. -/
theorem C3_set_then_get (uid : Int) (t d : String) (s : TemplateStore.Store)
    (m : TemplateManager.Manager) :
    TemplateStore.get_template uid (TemplateStore.set_template uid t d s) = some ⟨t, d⟩ ∧
    TemplateStore.get_template uid
      (TemplateStore.restart (TemplateStore.set_template uid t d s)) = some ⟨t, d⟩ ∧
    TemplateManager.get_template uid (TemplateManager.set_template uid t d m) = some ⟨t, d⟩ ∧
    (TemplateManager.restart (TemplateManager.set_template uid t d m)).map
      (TemplateManager.get_template uid) = Except.ok (some ⟨t, d⟩) := by
  refine ⟨?_, ?_, ?_, ?_⟩
  · exact MchHelper.dictGet_dictSet_self ..
  · show MchHelper.dictGet (toString uid)
        (TemplateStore.load (TemplateStore.set_template uid t d s).file) =
      some ⟨t, d⟩
    rw [TemplateStore.load_set_file]
    exact MchHelper.dictGet_dictSet_self ..
  · exact MchHelper.dictGet_dictSet_self ..
  · show Except.ok (MchHelper.dictGet (toString uid)
        (MchHelper.dictSet (toString uid) ⟨t, d⟩ m.templates)) =
      Except.ok (some ⟨t, d⟩)
    rw [MchHelper.dictGet_dictSet_self]

/-- C4 counterexample: the claim says a corrupt or unreadable backing file
also leads to an empty store at startup, but `TemplateManager.load_templates`
(bot.py) has no exception handling around `json.load`, so on a corrupt
existing file the load raises instead of starting empty. -/
theorem C4_counterexample :
    TemplateManager.load_templates (some none) = Except.error () := rfl

/-- C4 (amended): `TemplateStore._load` (main.py) starts with an empty store
both for a missing backing file and for a corrupt/unreadable one;
`TemplateManager.load_templates` (bot.py) starts empty for a missing file
(while a corrupt file makes it raise, per the counterexample). -/
theorem C4_startup_load :
    TemplateStore.load none = [] ∧ TemplateStore.load (some none) = [] ∧
    TemplateManager.load_templates none = Except.ok [] :=
  ⟨rfl, rfl, rfl⟩

/-- C9: `updateDescription` mutates only the description field of the user's
existing entry — afterwards `getTemplate` returns the old example text with
the new description, and every other user's entry is unchanged — and when the
user has no entry it is a no-op: the whole store state (data and file) is
unchanged and `getTemplate` still returns none. -/
theorem C9_update_description (s : TemplateManager.Manager) (uid : Int) (d : String) :
    (TemplateManager.get_template uid s = none →
      TemplateManager.update_description uid d s = s ∧
      TemplateManager.get_template uid (TemplateManager.update_description uid d s) = none) ∧
    (∀ e, TemplateManager.get_template uid s = some e →
      TemplateManager.get_template uid (TemplateManager.update_description uid d s) =
        some ⟨e.example_text, d⟩ ∧
      ∀ k, k ≠ toString uid →
        MchHelper.dictGet k (TemplateManager.update_description uid d s).templates =
          MchHelper.dictGet k s.templates) := by
  constructor
  · intro hnone
    have hu : TemplateManager.update_description uid d s = s := by
      unfold TemplateManager.update_description
      rw [show MchHelper.dictGet (toString uid) s.templates = none from hnone]
    exact ⟨hu, by rw [hu]; exact hnone⟩
  · intro e he
    have hu : TemplateManager.update_description uid d s =
        TemplateManager.save_templates
          { s with templates :=
              MchHelper.dictSet (toString uid) ⟨e.example_text, d⟩ s.templates } := by
      unfold TemplateManager.update_description
      rw [show MchHelper.dictGet (toString uid) s.templates = some e from he]
    refine ⟨?_, ?_⟩
    · rw [hu]
      exact MchHelper.dictGet_dictSet_self ..
    · intro k hk
      rw [hu]
      exact MchHelper.dictGet_dictSet_ne _ _ _ hk _

/-- Witness for C9 at a concrete store: updating the description of an absent
user changes nothing, and updating a present user rewrites only the
description. -/
theorem C9_update_description_witness :
    TemplateManager.update_description 7 "d"
      { templates := [(toString (5 : Int), ⟨"ex", "de"⟩)], file := none } =
      { templates := [(toString (5 : Int), ⟨"ex", "de"⟩)], file := none } ∧
    TemplateManager.get_template 5 (TemplateManager.update_description 5 "nd"
      { templates := [(toString (5 : Int), ⟨"ex", "de"⟩)], file := none }) =
      some ⟨"ex", "nd"⟩ :=
  ⟨((C9_update_description _ 7 "d").1 (by decide)).1,
   ((C9_update_description _ 5 "nd").2 ⟨"ex", "de"⟩ (by decide)).1⟩

namespace VacancyProcessor

theorem findUrlsGo_eq_nil :
    ∀ (fuel : Nat) (s : List Char),
      (∀ t ∈ s.tails, tryUrl t = none) → findUrlsGo fuel s = []
  | 0, _, _ => rfl
  | _ + 1, [], _ => rfl
  | fuel + 1, c :: cs, h => by
    have h0 : tryUrl (c :: cs) = none := h _ (by simp [List.mem_tails])
    have hrec : findUrlsGo fuel cs = [] :=
      findUrlsGo_eq_nil fuel cs (fun t ht => h t (by
        rw [List.tails_cons]
        exact List.mem_cons_of_mem _ ht))
    simp [findUrlsGo, h0, hrec]

end VacancyProcessor

/-- C7: for every input that contains no substring matching the URL pattern
(`http`/`https` scheme followed by at least one non-whitespace character —
i.e. the pattern matches at no suffix of the input), `extract_url_content`
returns the input text completely unchanged and no source URL, for any
behaviour of the network. -/
theorem C7_no_url (text : List Char) (fetchText : List Char → Option (List Char))
    (h : ∀ t ∈ text.tails, VacancyProcessor.tryUrl t = none) :
    VacancyProcessor.extract_url_content fetchText text = (text, none) := by
  have hnil : VacancyProcessor.findUrls text = [] :=
    VacancyProcessor.findUrlsGo_eq_nil _ _ h
  simp [VacancyProcessor.extract_url_content, hnil]

/-- Witness for C7 on a concrete URL-free input. -/
theorem C7_no_url_witness :
    VacancyProcessor.extract_url_content (fun _ => none) ("no links here".data) =
      (("no links here".data), none) :=
  C7_no_url _ _ (by decide)

/-- C8: for every input containing at least one URL, only the first URL found
is ever fetched (the result depends on the fetch oracle only through its value
at that first URL); on fetch failure the original input text is returned
together with that first URL as the source URL, and on success the cleaned
page text is returned with the same first URL. -/
theorem C8_first_url (text : List Char) (fetch fetch' : List Char → Option (List Char))
    (u : List Char) (rest : List (List Char))
    (h : VacancyProcessor.findUrls text = u :: rest) :
    (fetch u = none →
      VacancyProcessor.extract_url_content fetch text = (text, some u)) ∧
    (∀ c, fetch u = some c →
      VacancyProcessor.extract_url_content fetch text =
        (VacancyProcessor.cleanLines c, some u)) ∧
    (fetch u = fetch' u →
      VacancyProcessor.extract_url_content fetch text =
        VacancyProcessor.extract_url_content fetch' text) := by
  have hx : ∀ g : List Char → Option (List Char),
      VacancyProcessor.extract_url_content g text =
        (match g u with
         | some tc => (VacancyProcessor.cleanLines tc, some u)
         | none => (text, some u)) := by
    intro g
    unfold VacancyProcessor.extract_url_content
    rw [h]
  refine ⟨fun hf => ?_, fun c hf => ?_, fun he => ?_⟩
  · rw [hx fetch, hf]
  · rw [hx fetch, hf]
  · rw [hx fetch, hx fetch', he]

/-- Witness for C8 on a concrete input whose first (and only) URL fails to
fetch. -/
theorem C8_first_url_witness :
    VacancyProcessor.extract_url_content (fun _ => none) ("see http://x.com now".data) =
      (("see http://x.com now".data), some ("http://x.com".data)) :=
  (C8_first_url _ _ (fun _ => none) _ [] (by decide)).1 rfl

/-- C1 counterexample: the claim says the generation operation never raises to
the caller and, with no credentials configured, returns the deterministic
fallback string; but `VacancyBot._call_yandex_llm` (main.py), one of the two
generation implementations the claim covers, raises `RuntimeError` when the
API key is absent (modelled as an `error` result) and produces no fallback. -/
theorem C1_counterexample :
    VacancyBot.call_yandex_llm none
      (VacancyBot.HttpxOutcome.response 200 (some ("ok".data)))
      ("tpl".data) ("desc".data) ("vac".data) =
      Except.error VacancyBot.LlmError.configMissing := rfl

/-- C1 (amended): `VacancyProcessor.generate_message` (bot.py) never raises:
with missing/empty credentials it performs no network call and returns the
deterministic fallback, and on a raised transport error, a non-200 status, or
an unparsable 200 response it returns the same fallback; the fallback contains
the literal template text and the literal new content verbatim.  (`main.py`'s
`_call_yandex_llm` instead propagates those failures, per the
counterexample.) -/
theorem C1_generate_fails_open (api_key folder_id : Option (List Char))
    (net : VacancyProcessor.ApiOutcome) (v e d : List Char) (ci : Option (List Char)) :
    ((MchHelper.falsy api_key || MchHelper.falsy folder_id) = true →
      VacancyProcessor.generate_message api_key folder_id net v e d ci =
        (VacancyProcessor.generate_simple_message v e ci, false)) ∧
    ((VacancyProcessor.generate_message api_key folder_id
        VacancyProcessor.ApiOutcome.raised v e d ci).1 =
      VacancyProcessor.generate_simple_message v e ci) ∧
    (∀ status ex, status ≠ 200 →
      (VacancyProcessor.generate_message api_key folder_id
          (VacancyProcessor.ApiOutcome.response status ex) v e d ci).1 =
        VacancyProcessor.generate_simple_message v e ci) ∧
    ((VacancyProcessor.generate_message api_key folder_id
        (VacancyProcessor.ApiOutcome.response 200 none) v e d ci).1 =
      VacancyProcessor.generate_simple_message v e ci) ∧
    (∃ p q, VacancyProcessor.generate_simple_message v e ci = p ++ e ++ q) ∧
    (∃ p q, VacancyProcessor.generate_simple_message v e ci = p ++ v ++ q) := by
  refine ⟨fun hf => ?_, ?_, fun status ex hs => ?_, ?_, ?_, ?_⟩
  · simp [VacancyProcessor.generate_message, hf]
  · by_cases hf : (MchHelper.falsy api_key || MchHelper.falsy folder_id) = true <;>
      simp [VacancyProcessor.generate_message, hf]
  · by_cases hf : (MchHelper.falsy api_key || MchHelper.falsy folder_id) = true <;>
      simp [VacancyProcessor.generate_message, hf, hs]
  · by_cases hf : (MchHelper.falsy api_key || MchHelper.falsy folder_id) = true <;>
      simp [VacancyProcessor.generate_message, hf]
  · exact ⟨VacancyProcessor.SIMPLE1 ++ VacancyProcessor.SIMPLE2,
      ['\n', '\n'] ++ VacancyProcessor.SIMPLE3 ++ v ++ ['\n', '\n'] ++ VacancyProcessor.SIMPLE4,
      by simp [VacancyProcessor.generate_simple_message, List.append_assoc]⟩
  · exact ⟨VacancyProcessor.SIMPLE1 ++ VacancyProcessor.SIMPLE2 ++ e ++ ['\n', '\n'] ++
        VacancyProcessor.SIMPLE3,
      ['\n', '\n'] ++ VacancyProcessor.SIMPLE4,
      by simp [VacancyProcessor.generate_simple_message, List.append_assoc]⟩

/-- Witness for C1 (amended) at concrete inputs: missing key means no network
call and the fallback; a 500 status also yields the fallback. -/
theorem C1_generate_fails_open_witness :
    VacancyProcessor.generate_message none (some ("f".data))
        VacancyProcessor.ApiOutcome.raised ("v".data) ("e".data) ("d".data) none =
      (VacancyProcessor.generate_simple_message ("v".data) ("e".data) none, false) ∧
    (VacancyProcessor.generate_message (some ("k".data)) (some ("f".data))
        (VacancyProcessor.ApiOutcome.response 500 none) ("v".data) ("e".data) ("d".data) none).1 =
      VacancyProcessor.generate_simple_message ("v".data) ("e".data) none :=
  ⟨(C1_generate_fails_open none (some ("f".data)) VacancyProcessor.ApiOutcome.raised
      ("v".data) ("e".data) ("d".data) none).1 (by decide),
   (C1_generate_fails_open (some ("k".data)) (some ("f".data))
      (VacancyProcessor.ApiOutcome.response 500 none) ("v".data) ("e".data) ("d".data)
      none).2.2.1 500 none (by decide)⟩

set_option maxRecDepth 100000

/-- C2 counterexample: the output sanitizer is not idempotent.  On the input
consisting of a space, three backticks and `a`, the first pass does not strip
the fence (the fence-stripping pattern is anchored at position 0, where a space
sits) but the final trim exposes it; the second pass then strips it, so
applying the sanitizer to its own output changes the string again. -/
theorem C2_counterexample :
    VacancyProcessor.sanitize_output (VacancyProcessor.sanitize_output (" ```a".data)) ≠
      VacancyProcessor.sanitize_output (" ```a".data) := by decide

/-- C2 (amended): the sanitizer is idempotent on model-shaped output containing
disallowed tags, line-break tags and a bare link, as on this representative
input, but not on arbitrary strings: a code fence (or a leading `html`/`body`
token) that only becomes leading after earlier rewrites is stripped only by a
second pass, per the counterexample. -/
theorem C2_idempotent_on_example :
    VacancyProcessor.sanitize_output
        (VacancyProcessor.sanitize_output
          ("<div>Hello</div><br>see http://x.com <span>ok</span>".data)) =
      VacancyProcessor.sanitize_output
        ("<div>Hello</div><br>see http://x.com <span>ok</span>".data) := by decide

/-- C5 counterexample: the sanitizer does not remove every tag outside the
allowed set — the removal pattern only inspects the first letter after `<`
(character class `[biusa]`), so `<ul>` and `<script>` survive unchanged even
though they are not among bold/italic/underline/strikethrough/
block-quote/hyperlink. -/
theorem C5_counterexample :
    VacancyProcessor.clean_html_for_telegram ("<ul>x</ul>".data) = ("<ul>x</ul>".data) ∧
    ("<ul>".data) <:+: VacancyProcessor.clean_html_for_telegram ("<ul>x</ul>".data) ∧
    ("<script>".data) <:+:
      VacancyProcessor.clean_html_for_telegram ("<script>alert</script>".data) := by decide

/-- C5 (amended): when the sanitizer discards a disallowed wrapper tag it keeps
the enclosed text — for `<div>Hello</div>` the output is exactly `Hello`, and
likewise for other removed tags such as `<h1>` — but tags whose name begins
with one of the letters `b i u s a` (e.g. `<ul>`, `<script>`) escape the
removal and remain in the output, so not every tag outside the allowed set is
removed. -/
theorem C5_keeps_enclosed_text :
    VacancyProcessor.clean_html_for_telegram ("<div>Hello</div>".data) = ("Hello".data) ∧
    VacancyProcessor.clean_html_for_telegram ("<h1>Hi</h1>".data) = ("Hi".data) := by decide

/-- C6: evaluation of the code at the failing input.  The bare-link rule of
`format_contact_links` leaves `see http://x.com now` completely unchanged —
no wrapping happens, because the pattern (written with a doubled backslash in a
raw string) demands a literal backslash and capital `S` letters after the
scheme — while an already-anchored address is also left unchanged. -/
theorem C6_bare_link_not_wrapped :
    VacancyProcessor.format_contact_links ("see http://x.com now".data) =
      ("see http://x.com now".data) ∧
    VacancyProcessor.format_contact_links ("<a href=\"http://x.com\">click</a>".data) =
      ("<a href=\"http://x.com\">click</a>".data) := by decide

/-- C10: the sanitizer is total (a Lean function on all of `List Char`) and its
output is always trimmed: for every input string the first character of the
output, if any, is not whitespace, and neither is the last. -/
theorem C10_output_trimmed (s : List Char) :
    (∀ c cs, VacancyProcessor.clean_html_for_telegram s = c :: cs →
      MchHelper.pySpace c = false) ∧
    (∀ c, (VacancyProcessor.clean_html_for_telegram s).getLast? = some c →
      MchHelper.pySpace c = false) :=
  ⟨fun c cs h => MchHelper.pyStripHead _ c cs h,
   fun c h => MchHelper.pyStripLast _ c h⟩

/-- Witness for C10 at a concrete input whose output is the two-character
string `Hi`. -/
theorem C10_output_trimmed_witness :
    MchHelper.pySpace 'H' = false ∧ MchHelper.pySpace 'i' = false :=
  ⟨(C10_output_trimmed ("  Hi  ".data)).1 'H' ("i".data) (by decide),
   (C10_output_trimmed ("  Hi  ".data)).2 'i' (by decide)⟩
